import Mathlib

/-!
# CHORNEX resilient news-acquisition pipeline: a shallow embedding

This file embeds the core of the CHORNEX news pipeline in Lean 4 and proves
the behavioural properties claimed of it.

The embedded code:
* the data model (`src/types.ts`): `Language`, `NewsHighlight`, `NewsResponse`,
  `GroundingSource`, together with the `QUOTA_EXCEEDED` status used by the
  service layer and the cached record shape
  `\x7bdata, sources, timestamp, lang\x7d`;
* the fallback orchestrator `fetchNewsUpdates` of `src/unnamed/part_001`
  (cache check → configuration check → primary provider → catch-all:
  stale-cache serving → static fallback), embedded as `fetchNewsUpdatesA`;
* the fallback orchestrator `fetchNewsUpdates` of
  `src/services/geminiService.ts` (second revision: cache check → primary
  provider → OpenAI secondary fallback → stale-cache serving → static
  fallback), embedded as `fetchNewsUpdatesB`, with its helper
  `fetchOpenAIFallback`;
* the response-normalisation step (code-fence stripping + JSON parsing,
  lines 165–174 of `src/unnamed/part_001`), embedded both inside the
  orchestrators and standalone as `normalize` over a `Json` value model;
* the `loadNews` state-resolution step of the application shell
  (`src/unnamed/part_000`, lines 33–56), embedded as `resolveLoadNews`.

Effects are made explicit:
* `localStorage` is an environment field `cache`; `getItem` returning a
  string that fails to deserialize (`JSON.parse` or the destructuring
  throwing) is modelled as `some none`, a valid record as `some (some st)`,
  an absent record as `none`.  Cache mutations (`setItem` / `removeItem`)
  are reported as a list of `CacheOp`s in the order performed.
* `JSON.parse` is a JavaScript builtin external to the repository; it is
  modelled as an abstract partial function in the environment
  (`parse : String → Option …`).  At the orchestrator level its result is
  typed `NewsResponse` because the source casts the parsed value to that
  type without validation; the standalone normaliser models the parse at
  the `Json` level, which is where the absence of shape validation is
  examined.
* provider transport outcomes are environment fields (`primary`,
  `secondary`); a thrown JavaScript error is `Except.error`.
* the orchestrators return `Except String …`: a `.error` would model an
  uncaught exception reaching the caller, so totality of the pipeline is
  the statement that the result is always `.ok`.
-/

namespace Chornex

/-! ## Data model (src/types.ts) -/

/-- Type `Language` from `src/types.ts`: `'en' | 'bn'`. -/
inductive Language where
  | en
  | bn
deriving DecidableEq, Repr

/-- The `category` union of `NewsHighlight` in `src/types.ts`. -/
inductive Category where
  | world
  | economy
  | tech
  | security
  | climate
  | politics
  | bangladesh
  | other
deriving DecidableEq, Repr

/-- Type `NewsHighlight` from `src/types.ts` (`url` is optional there). -/
structure NewsHighlight where
  headline : String
  summary : String
  url : Option String
  category : Category
  timestamp : String
deriving DecidableEq, Repr

/-- The `status` values that flow through the service layer:
`'OK' | 'NO NEW UPDATE'` from `src/types.ts` plus `'QUOTA_EXCEEDED'`,
which the service assigns on degraded paths and the application shell
compares against. -/
inductive Status where
  | OK
  | NO_NEW_UPDATE
  | QUOTA_EXCEEDED
deriving DecidableEq, Repr

/-- Type `NewsResponse` from `src/types.ts`. -/
structure NewsResponse where
  generated_at : String
  language : Language
  status : Status
  highlights : List NewsHighlight
deriving DecidableEq, Repr

/-- Type `GroundingSource` from `src/types.ts`. -/
structure GroundingSource where
  uri : String
  title : String
deriving DecidableEq, Repr

/-- The record written to `localStorage` by the service:
`\x7bdata, sources, timestamp: Date.now(), lang: language\x7d`.
A stored record that deserializes successfully has exactly this shape
(it is only ever written by the service itself); a stored string on which
the read-and-destructure step throws is modelled as corrupt
(see `fetchNewsUpdatesA`). -/
structure CacheStored where
  data : NewsResponse
  sources : List GroundingSource
  timestamp : Nat
  lang : Language
deriving DecidableEq, Repr

/-- Constant `CACHE_DURATION_MS = 15 * 60 * 1000` from `src/unnamed/part_001`. -/
def CACHE_DURATION_MS : Nat := 15 * 60 * 1000

/-! ## String helpers: the code-fence stripping

`src/unnamed/part_001`, line 166:
`text.replace(/` `` `json/g, '').replace(/` `` `/g, '').trim()`.
JavaScript `String.replace` with a global literal pattern replaces all
non-overlapping occurrences scanning left to right; `trim` drops leading
and trailing whitespace.  These are embedded structurally over `List Char`
so that they compute by kernel reduction. -/

/-- Replace all non-overlapping occurrences of `pat` in `s` with `rep`,
scanning left to right (the semantics of a global literal-pattern
`String.replace` in JavaScript for a non-empty pattern).  `fuel` bounds
the recursion; it is instantiated with the length of `s`, which suffices
because every step consumes at least one character of `s`. -/
def replaceAllAux (pat rep : List Char) : Nat → List Char → List Char
  | 0, s => s
  | _ + 1, [] => []
  | fuel + 1, c :: rest =>
      if pat.isPrefixOf (c :: rest) then
        rep ++ replaceAllAux pat rep fuel ((c :: rest).drop pat.length)
      else
        c :: replaceAllAux pat rep fuel rest

/-- Replace all occurrences of the non-empty pattern `pat` in `s` by `rep`. -/
def replaceAll (s pat rep : String) : String :=
  if pat.data = [] then s
  else ⟨replaceAllAux pat.data rep.data s.data.length s.data⟩

/-- Drop leading and trailing whitespace (JavaScript `trim`). -/
def trimChars (s : String) : String :=
  ⟨((s.data.dropWhile Char.isWhitespace).reverse.dropWhile
      Char.isWhitespace).reverse⟩

/-- Line 166 of `src/unnamed/part_001` (identical in
`src/services/geminiService.ts`): strip Markdown code fences, then trim. -/
def cleanFences (text : String) : String :=
  trimChars (replaceAll (replaceAll text "```json" "") "```" "")

/-! ## JSON value model and the normaliser (C7)

The normalisation step is inlined in `fetchNewsUpdates`
(`src/unnamed/part_001`, lines 165–174):

```
const cleanText = text.replace(...).replace(...).trim();
let parsedData: NewsResponse;
try \x7b parsedData = JSON.parse(cleanText); \x7d
catch (e) \x7b
  console.error("Failed to parse JSON", text);
  throw new Error("Invalid response format from news engine.");
\x7d
```

`JSON.parse` is a JavaScript builtin, so it enters the model as an
abstract partial function over a `Json` value type.  The essential point,
visible in the source, is that its result is assigned to `parsedData`
unchanged: no structural validation follows the parse. -/

/-- JSON values.  JSON numbers are modelled as integers: the
`NewsResponse` shape contains no numeric field, so numbers occur only in
structurally invalid payloads, where their exact value is irrelevant. -/
inductive Json where
  | null
  | bool (b : Bool)
  | num (n : Int)
  | str (s : String)
  | arr (xs : List Json)
  | obj (fields : List (String × Json))

/-- The normalisation step of `src/unnamed/part_001`, lines 165–174,
parameterised by the behaviour of `JSON.parse` (`parse s = none` models a
parse throw).  On a parse failure the code throws
`new Error("Invalid response format from news engine.")`; the raw text is
written to the console log but is not attached to the thrown error. -/
def normalize (parse : String → Option Json) (raw : String) :
    Except String Json :=
  match parse (cleanFences raw) with
  | some j => .ok j
  | none => .error "Invalid response format from news engine."

/-- Modelled from the spec (§3): whether a JSON value has exactly the
`NewsHighlight` shape — an object with string `headline`, `summary` and
`timestamp`, an optional string `url`, and a `category` drawn from the
spec's enumeration.  The repository has no such check; this definition
exists only to be compared against what the code accepts. -/
def isValidHighlightJson (j : Json) : Bool :=
  match j with
  | .obj fields =>
      (match fields.lookup "headline" with
       | some (.str _) => true
       | _ => false) &&
      (match fields.lookup "summary" with
       | some (.str _) => true
       | _ => false) &&
      (match fields.lookup "url" with
       | some (.str _) => true
       | none => true
       | _ => false) &&
      (match fields.lookup "category" with
       | some (.str c) =>
           c = "world" || c = "economy" || c = "tech" || c = "security" ||
           c = "climate" || c = "politics" || c = "bangladesh" || c = "other"
       | _ => false) &&
      (match fields.lookup "timestamp" with
       | some (.str _) => true
       | _ => false)
  | _ => false

/-- Modelled from the spec (§3): whether a JSON value has exactly the
`NewsResponse` shape.  The repository has no such check; this definition
exists only to be compared against what the code accepts. -/
def isValidNewsResponseJson (j : Json) : Bool :=
  match j with
  | .obj fields =>
      (match fields.lookup "generated_at" with
       | some (.str _) => true
       | _ => false) &&
      (match fields.lookup "language" with
       | some (.str l) => l = "en" || l = "bn"
       | _ => false) &&
      (match fields.lookup "status" with
       | some (.str s) =>
           s = "OK" || s = "NO NEW UPDATE" || s = "QUOTA_EXCEEDED"
       | _ => false) &&
      (match fields.lookup "highlights" with
       | some (.arr hs) => hs.all isValidHighlightJson
       | _ => false)
  | _ => false

/-- The behaviour of `JSON.parse` at the single input `"42"` (and nothing
else), used to instantiate the abstract parse function on a concrete
run: `JSON.parse("42")` succeeds and returns the number `42`. -/
def parseNum42 : String → Option Json :=
  fun s => if s = "42" then some (.num 42) else none

/-! ## Static fallback data and the configuration-error highlight
(src/unnamed/part_001, lines 47–81 and 113–126) -/

/-- Constant `FALLBACK_DATA` from `src/unnamed/part_001`, lines 47–81.  Its
`generated_at` field is `new Date().toISOString()` evaluated once at
module load; that instant enters the model as the parameter
`moduleInitIso`. -/
def FALLBACK_DATA (moduleInitIso : String) : NewsResponse where
  generated_at := moduleInitIso
  language := .en
  status := .QUOTA_EXCEEDED
  highlights :=
    [ { headline := "System Maintenance: Live Feed Paused"
        summary := "The neural news engine is currently under high load or maintenance. We are serving an archival snapshot while we restore real-time connectivity."
        category := .tech
        timestamp := "System Message"
        url := some "#" },
      { headline := "Global Markets Review"
        summary := "Major indices show resilience amidst shifting economic policies. Tech and energy sectors lead the volatility as investors await quarterly reports."
        category := .economy
        timestamp := "Archived"
        url := some "#" },
      { headline := "International Cooperation on Climate"
        summary := "New frameworks for carbon reduction are being discussed by G20 nations, aiming for significant milestones by 2030."
        category := .climate
        timestamp := "Archived"
        url := some "#" },
      { headline := "Development Update: Bangladesh"
        summary := "Infrastructure projects in major cities continue to progress, with new transport initiatives expected to ease congestion significantly."
        category := .bangladesh
        timestamp := "Archived"
        url := some "#" } ]

/-- The synthetic highlight assigned on the missing-credentials path
(`src/unnamed/part_001`, lines 118–124). -/
def configHighlight : NewsHighlight where
  headline := "Configuration Required"
  summary := "The News Engine API Key is missing. Please configure the API_KEY environment variable in your deployment settings."
  category := .security
  timestamp := "Setup Error"
  url := some "#"

/-! ## The orchestrator of src/unnamed/part_001 (`fetchNewsUpdatesA`) -/

/-- One grounding chunk's `web` field: `\x7buri, title\x7d` as read from
the provider's grounding metadata.  A missing `uri`/`title` is the empty
string (both are falsy in the source's filter). -/
structure WebChunk where
  uri : String
  title : String
deriving DecidableEq, Repr

/-- The provider transport result: `response.text` (possibly absent) and
`response.candidates?.[0]?.groundingMetadata?.groundingChunks || []`,
each chunk represented by its `web` field (`none` when the chunk has no
`web`). -/
structure PrimaryResponse where
  text : Option String
  chunks : List (Option WebChunk)

/-- Lines 177–180 of `src/unnamed/part_001`:
`.map(chunk => chunk.web).filter(web => web && web.uri && web.title)`. -/
def extractSources (chunks : List (Option WebChunk)) : List GroundingSource :=
  chunks.filterMap fun c =>
    match c with
    | some w => if w.uri ≠ "" ∧ w.title ≠ "" then some ⟨w.uri, w.title⟩ else none
    | none => none

/-- The `\x7bdata, sources\x7d` value `fetchNewsUpdates` resolves with. -/
structure FetchResult where
  data : NewsResponse
  sources : List GroundingSource
deriving DecidableEq, Repr

/-- A mutation of the `localStorage` cache slot, in the order performed:
`removeItem(CACHE_KEY)` or `setItem(CACHE_KEY, …)`. -/
inductive CacheOp where
  | remove
  | put (e : CacheStored)
deriving DecidableEq, Repr

/-- Effect of one cache mutation on the slot's state. -/
def applyOp (c : Option (Option CacheStored)) : CacheOp → Option (Option CacheStored)
  | .remove => none
  | .put e => some (some e)

/-- State of the cache slot after a list of mutations. -/
def applyOps (c : Option (Option CacheStored)) (ops : List CacheOp) :
    Option (Option CacheStored) :=
  ops.foldl applyOp c

/-- Which return statement of `src/unnamed/part_001`'s `fetchNewsUpdates`
produced the result. -/
inductive PathA where
  | cacheHit
  | configError
  | primarySuccess
  | staleServe
  | staticFallback
deriving DecidableEq, Repr

/-- Observable outcome of one `fetchNewsUpdates` run (variant A): the
resolved value, the cache mutations performed, the return site, and
whether the primary provider call was issued. -/
structure TraceA where
  result : FetchResult
  ops : List CacheOp
  path : PathA
  calledPrimary : Bool
deriving DecidableEq, Repr

/-- Environment of one `fetchNewsUpdates` run (variant A,
`src/unnamed/part_001`): the ambient state and external behaviours the
function reads. -/
structure EnvA where
  /-- `process.env.API_KEY`; an absent key is the empty string (both are
  falsy in `if (!process.env.API_KEY)`). -/
  apiKey : String
  /-- `localStorage` slot under `CACHE_KEY`: `none` = no record,
  `some none` = a record on which read-and-destructure throws (corrupt),
  `some (some st)` = a record deserializing to `st`. -/
  cache : Option (Option CacheStored)
  /-- `Date.now()` at this call. -/
  now : Nat
  /-- `new Date().toISOString()` at module load (used by `FALLBACK_DATA`). -/
  initIso : String
  /-- Outcome of `ai.models.generateContent`: `.error` models a throw. -/
  primary : Except Unit PrimaryResponse
  /-- `JSON.parse` composed with the source's unchecked cast to
  `NewsResponse`; `none` models a parse throw. -/
  parse : String → Option NewsResponse

/-- The body of the `try` block of `src/unnamed/part_001`, lines 155–190
(after the prompt is built): call the primary provider, default the text
to `"\x7b\x7d"`, strip fences, parse, extract the grounding sources and
build the cache record.  `.error` models any throw inside the block. -/
def tryPrimaryA (env : EnvA) (language : Language) :
    Except Unit (FetchResult × CacheStored) :=
  match env.primary with
  | .error _ => .error ()
  | .ok resp =>
      match env.parse (cleanFences (resp.text.getD "\x7b\x7d")) with
      | none => .error ()
      | some parsedData =>
          let sources := extractSources resp.chunks
          .ok (⟨parsedData, sources⟩, ⟨parsedData, sources, env.now, language⟩)

/-- Stage of `src/unnamed/part_001`'s `fetchNewsUpdates` after the cache check
(steps 2–5): configuration check, primary attempt, and the catch-all
fail-safe (stale cache re-read from storage, then static fallback).
`ops0` holds the mutation (if any) the cache check already performed. -/
def fetchAfterCacheA (env : EnvA) (language : Language) (ops0 : List CacheOp) :
    TraceA :=
  if env.apiKey = "" then
    { result := { data := { FALLBACK_DATA env.initIso with
                              highlights := [configHighlight] }
                  sources := [] }
      ops := ops0
      path := .configError
      calledPrimary := false }
  else
    match tryPrimaryA env language with
    | .ok (res, entry) =>
        { result := res
          ops := ops0 ++ [.put entry]
          path := .primarySuccess
          calledPrimary := true }
    | .error _ =>
        match applyOps env.cache ops0 with
        | some (some st) =>
            { result := { data := { st.data with status := .QUOTA_EXCEEDED }
                          sources := st.sources }
              ops := ops0
              path := .staleServe
              calledPrimary := true }
        | _ =>
            { result := { data := FALLBACK_DATA env.initIso, sources := [] }
              ops := ops0
              path := .staticFallback
              calledPrimary := true }

/-- Function `fetchNewsUpdates` from `src/unnamed/part_001`, lines 92–217.
Step 1 reads the cache slot: a record that deserializes and satisfies
`(Date.now() - timestamp) < CACHE_DURATION_MS && lang === language` is
returned directly; a record on which deserialization throws is removed;
otherwise control falls through to `fetchAfterCacheA`.  The catch block
re-reads `localStorage`, so the fail-safe sees the slot after the
step-1 removal (`applyOps env.cache ops0`).  `previousHighlights` only
feeds the provider prompt, which the model omits.  The `Except String`
codomain records that the function could in principle reject its
promise; every control path in fact ends in a normal return (`.ok`) —
throws occur only inside `tryPrimaryA`, whose failures are consumed by
the fail-safe. -/
def fetchNewsUpdatesA (env : EnvA) (language : Language)
    (previousHighlights : List NewsHighlight) : Except String TraceA :=
  match env.cache with
  | some (some st) =>
      if env.now - st.timestamp < CACHE_DURATION_MS ∧ st.lang = language then
        .ok { result := { data := st.data, sources := st.sources }
              ops := []
              path := .cacheHit
              calledPrimary := false }
      else
        .ok (fetchAfterCacheA env language [])
  | some none => .ok (fetchAfterCacheA env language [.remove])
  | none => .ok (fetchAfterCacheA env language [])

/-! ## The orchestrator of src/services/geminiService.ts, second revision
(`fetchNewsUpdatesB`), with the OpenAI secondary fallback -/

/-- Which return statement of the `geminiService.ts` revision of
`fetchNewsUpdates` produced the result. -/
inductive PathB where
  | cacheHit
  | primarySuccess
  | secondarySuccess
  | staleServe
  | staticFallback
deriving DecidableEq, Repr

/-- Observable outcome of one `fetchNewsUpdates` run (variant B). -/
structure TraceB where
  result : FetchResult
  ops : List CacheOp
  path : PathB
  calledPrimary : Bool
  calledSecondary : Bool
deriving DecidableEq, Repr

/-- Environment of one `fetchNewsUpdates` run (variant B,
`src/services/geminiService.ts`, second revision). -/
structure EnvB where
  /-- `process.env.API_KEY`; absent = empty string (falsy). -/
  apiKey : String
  /-- `process.env.OPENAI_API_KEY`; absent = empty string (falsy). -/
  openaiKey : String
  /-- `localStorage` slot, as in `EnvA.cache`. -/
  cache : Option (Option CacheStored)
  /-- `Date.now()` at this call. -/
  now : Nat
  /-- `new Date().toISOString()` at module load (used by `FALLBACK_DATA`). -/
  initIso : String
  /-- Outcome of `ai.models.generateContent`: `.error` models a throw. -/
  primary : Except Unit PrimaryResponse
  /-- Outcome of the OpenAI `fetch`: `.error` models a network throw, a
  non-ok HTTP status, or an unreadable body; `.ok content` carries
  `data.choices[0]?.message?.content` (`none` when absent). -/
  secondary : Except Unit (Option String)
  /-- `JSON.parse` with the source's unchecked cast, as in `EnvA.parse`. -/
  parse : String → Option NewsResponse

/-- Function `fetchOpenAIFallback` from `src/services/geminiService.ts`, lines
189–218: throw if `OPENAI_API_KEY` is missing, otherwise POST to the
chat-completions endpoint, throw on a non-ok response, default the
returned content to `"\x7b\x7d"` and `JSON.parse` it (no fence
stripping on this path).  `.error` models any throw. -/
def fetchOpenAIFallback (env : EnvB) : Except Unit NewsResponse :=
  if env.openaiKey = "" then .error ()
  else
    match env.secondary with
    | .error _ => .error ()
    | .ok content =>
        match env.parse (content.getD "\x7b\x7d") with
        | none => .error ()
        | some d => .ok d

/-- The body of the `try` block of variant B, lines 261–292: the
`API_KEY` presence check is *inside* the `try`, so a missing key throws
into the same catch as a transport or parse failure. -/
def tryPrimaryB (env : EnvB) (language : Language) :
    Except Unit (FetchResult × CacheStored) :=
  if env.apiKey = "" then .error ()
  else
    match env.primary with
    | .error _ => .error ()
    | .ok resp =>
        match env.parse (cleanFences (resp.text.getD "\x7b\x7d")) with
        | none => .error ()
        | some parsedData =>
            let sources := extractSources resp.chunks
            .ok (⟨parsedData, sources⟩, ⟨parsedData, sources, env.now, language⟩)

/-- The catch block's terminal fail-safe (variant B, lines 316–328): it
reuses the `cached` string read at the top of the function (it does not
re-read storage), so a record that was corrupt at step 1 is re-parsed
here, fails again, and is ignored. -/
def staleOrStaticB (env : EnvB) (ops0 : List CacheOp)
    (calledP calledS : Bool) : TraceB :=
  match env.cache with
  | some (some st) =>
      { result := { data := { st.data with status := .QUOTA_EXCEEDED }
                    sources := st.sources }
        ops := ops0
        path := .staleServe
        calledPrimary := calledP
        calledSecondary := calledS }
  | _ =>
      { result := { data := FALLBACK_DATA env.initIso, sources := [] }
        ops := ops0
        path := .staticFallback
        calledPrimary := calledP
        calledSecondary := calledS }

/-- Variant B after the cache check: primary attempt, then — in the
catch — the OpenAI secondary (if `OPENAI_API_KEY` is present), then the
stale-cache / static fail-safe.  The primary transport call is issued
iff the key is present; the secondary `fetch` is issued iff
`OPENAI_API_KEY` is present (the orchestrator guards on it before
calling, and `fetchOpenAIFallback` re-checks it before the network
call). -/
def fetchAfterCacheB (env : EnvB) (language : Language) (ops0 : List CacheOp) :
    TraceB :=
  match tryPrimaryB env language with
  | .ok (res, entry) =>
      { result := res
        ops := ops0 ++ [.put entry]
        path := .primarySuccess
        calledPrimary := true
        calledSecondary := false }
  | .error _ =>
      if env.openaiKey = "" then
        staleOrStaticB env ops0 (env.apiKey ≠ "") false
      else
        match fetchOpenAIFallback env with
        | .ok d =>
            { result := { data := d, sources := [] }
              ops := ops0 ++ [.put ⟨d, [], env.now, language⟩]
              path := .secondarySuccess
              calledPrimary := env.apiKey ≠ ""
              calledSecondary := true }
        | .error _ =>
            staleOrStaticB env ops0 (env.apiKey ≠ "") true

/-- Function `fetchNewsUpdates` from `src/services/geminiService.ts` (second
revision), lines 220–330.  The cache check is identical to variant A;
the fail-safe chain differs as embedded above.  As in variant A, every
control path ends in a normal return. -/
def fetchNewsUpdatesB (env : EnvB) (language : Language)
    (previousHighlights : List NewsHighlight) : Except String TraceB :=
  match env.cache with
  | some (some st) =>
      if env.now - st.timestamp < CACHE_DURATION_MS ∧ st.lang = language then
        .ok { result := { data := st.data, sources := st.sources }
              ops := []
              path := .cacheHit
              calledPrimary := false
              calledSecondary := false }
      else
        .ok (fetchAfterCacheB env language [])
  | some none => .ok (fetchAfterCacheB env language [.remove])
  | none => .ok (fetchAfterCacheB env language [])

/-! ## The application shell's state resolution
(src/unnamed/part_000, `loadNews`, lines 33–56) -/

/-- The slice of `AppState` (`src/types.ts`) that the resolution step
reads and writes: `data` and `sources`.  (`loading`, `error` and
`lastUpdated` are set unconditionally by `loadNews` and are not touched
by any claim.) -/
structure AppStateSlice where
  data : Option NewsResponse
  sources : List GroundingSource
deriving DecidableEq, Repr

/-- The `setState` updater body of `loadNews`
(`src/unnamed/part_000`, lines 33–56), as a pure function of the
previous state slice, the reference highlights
(`previousHighlightsRef.current`), and the `\x7bdata, sources\x7d`
resolved by `fetchNewsUpdates`.  Returns the new state slice and the new
reference highlights:

* `status === 'NO NEW UPDATE'` with a previous `data` present keeps the
  previous data, refreshing only `generated_at` and `status`;
* `status === 'QUOTA_EXCEEDED'` keeps the incoming data as-is (the
  explicit branch assigns `newData = data`, its initial value);
* the reference highlights are replaced only when `status === 'OK'`;
* `sources` are kept from the previous state when the new list is empty. -/
def resolveLoadNews (prev : AppStateSlice) (prevRef : List NewsHighlight)
    (data : NewsResponse) (sources : List GroundingSource) :
    AppStateSlice × List NewsHighlight :=
  let newData :=
    if data.status = .NO_NEW_UPDATE then
      match prev.data with
      | some pd => { pd with generated_at := data.generated_at
                             status := data.status }
      | none => data
    else data
  let newRef := if data.status = .OK then data.highlights else prevRef
  ({ data := some newData
     sources := if sources.length > 0 then sources else prev.sources },
   newRef)

/-! ## Concrete inputs used by the witnesses and counterexamples -/

/-- A sample highlight. -/
def hlA : NewsHighlight := ⟨"A", "a", none, .world, "1m ago"⟩

/-- A sample highlight, distinct from `hlA`. -/
def hlB : NewsHighlight := ⟨"B", "b", none, .economy, "2m ago"⟩

/-- A sample highlight, distinct from `hlA` and `hlB`. -/
def hlC : NewsHighlight := ⟨"C", "c", none, .tech, "3m ago"⟩

/-- A fresh (age 0) cache record stored for language `en`. -/
def stW : CacheStored := ⟨⟨"T1", .en, .OK, [hlA]⟩, [⟨"u", "t"⟩], 0, .en⟩

/-- Environment: key present, fresh `en` cache record, failing provider. -/
def envW4 : EnvA :=
  { apiKey := "k", cache := some (some stW), now := 0, initIso := "T0"
    primary := .error (), parse := fun _ => none }

/-- A cache record stored for `en` whose age is exactly the TTL. -/
def stW3 : CacheStored := ⟨⟨"T1", .bn, .OK, [hlA]⟩, [⟨"u", "t"⟩], 0, .en⟩

/-- Environment: key present, expired cache record, failing provider. -/
def envW3 : EnvA :=
  { apiKey := "k", cache := some (some stW3), now := CACHE_DURATION_MS
    initIso := "T0", primary := .error (), parse := fun _ => none }

/-- Environment: key present, empty cache, failing provider. -/
def envW6 : EnvA :=
  { apiKey := "k", cache := none, now := 0, initIso := "T0"
    primary := .error (), parse := fun _ => none }

/-- Environment: key absent, empty cache. -/
def envW9 : EnvA :=
  { apiKey := "", cache := none, now := 0, initIso := "T0"
    primary := .error (), parse := fun _ => none }

/-- A well-formed provider payload. -/
def dW8 : NewsResponse := ⟨"T3", .en, .OK, [hlA]⟩

/-- Environment: corrupt cache record, succeeding provider whose raw text
`"D"` parses to `dW8`; one usable grounding chunk among three. -/
def envW8 : EnvA :=
  { apiKey := "k", cache := some none, now := 7, initIso := "T0"
    primary := .ok { text := some "D"
                     chunks := [some ⟨"u", "t"⟩, none, some ⟨"", "x"⟩] }
    parse := fun s => if s = "D" then some dW8 else none }

/-- A payload as returned by the secondary provider. -/
def dW5 : NewsResponse := ⟨"T2", .en, .OK, [hlB]⟩

/-- Environment (variant B): both keys present, empty cache, failing
primary, succeeding secondary whose content `"D"` parses to `dW5`. -/
def envW5 : EnvB :=
  { apiKey := "k", openaiKey := "ok", cache := none, now := 5, initIso := "T0"
    primary := .error (), secondary := .ok (some "D")
    parse := fun s => if s = "D" then some dW5 else none }

/-! ## Helper lemmas -/

/-- The post-cache stage never reports a cache hit: the direct-return
path exists only inside the step-1 cache check. -/
theorem fetchAfterCacheA_path_ne_cacheHit (env : EnvA) (language : Language)
    (ops0 : List CacheOp) :
    (fetchAfterCacheA env language ops0).path ≠ PathA.cacheHit := by
  unfold fetchAfterCacheA
  repeat' split
  all_goals simp

/-- Unfolding equation of `fetchNewsUpdatesA` for a valid stored record. -/
theorem fetchNewsUpdatesA_eq_of_cache_some (env : EnvA) (language : Language)
    (previousHighlights : List NewsHighlight) (st : CacheStored)
    (hc : env.cache = some (some st)) :
    fetchNewsUpdatesA env language previousHighlights =
      (if env.now - st.timestamp < CACHE_DURATION_MS ∧ st.lang = language then
        .ok { result := { data := st.data, sources := st.sources }
              ops := []
              path := .cacheHit
              calledPrimary := false }
      else .ok (fetchAfterCacheA env language [])) := by
  unfold fetchNewsUpdatesA
  rw [hc]

/-- Unfolding equation of `fetchNewsUpdatesA` for a corrupt stored record. -/
theorem fetchNewsUpdatesA_eq_of_cache_corrupt (env : EnvA) (language : Language)
    (previousHighlights : List NewsHighlight)
    (hc : env.cache = some none) :
    fetchNewsUpdatesA env language previousHighlights =
      .ok (fetchAfterCacheA env language [.remove]) := by
  unfold fetchNewsUpdatesA
  rw [hc]

/-- Unfolding equation of `fetchNewsUpdatesA` for an absent record. -/
theorem fetchNewsUpdatesA_eq_of_cache_none (env : EnvA) (language : Language)
    (previousHighlights : List NewsHighlight)
    (hc : env.cache = none) :
    fetchNewsUpdatesA env language previousHighlights =
      .ok (fetchAfterCacheA env language []) := by
  unfold fetchNewsUpdatesA
  rw [hc]

/-! ## Claim theorems -/

/-- C1: for every environment — any cache state (absent, corrupt, fresh
or stale record), any credential presence, any primary-provider
behaviour including transport failure and malformed output — every
requested language and every `previousHighlights` list, `fetchNewsUpdates`
(`src/unnamed/part_001`) resolves with a `\x7bdata, sources\x7d` trace:
no error ever escapes to the caller. -/
theorem fetchNewsUpdatesA_total (env : EnvA) (language : Language)
    (previousHighlights : List NewsHighlight) :
    ∃ t : TraceA,
      fetchNewsUpdatesA env language previousHighlights = .ok t := by
  unfold fetchNewsUpdatesA
  repeat' split
  all_goals exact ⟨_, rfl⟩

/-- C4: with a stored cache record `st`, the run returns directly from
the cache (no provider call, the stored `\x7bdata, sources\x7d`
unchanged) exactly when `now - st.timestamp < CACHE_DURATION_MS` and the
stored language equals the requested one; in particular a fresh record
stored for `en` never satisfies a request for `bn` (see the witness). -/
theorem fetchNewsUpdatesA_cache_precedence (env : EnvA) (language : Language)
    (previousHighlights : List NewsHighlight) (st : CacheStored) (t : TraceA)
    (hc : env.cache = some (some st))
    (ht : fetchNewsUpdatesA env language previousHighlights = .ok t) :
    (t.path = .cacheHit ↔
      (env.now - st.timestamp < CACHE_DURATION_MS ∧ st.lang = language)) ∧
    (t.path = .cacheHit →
      t.result.data = st.data ∧ t.result.sources = st.sources ∧
      t.calledPrimary = false) := by
  rw [fetchNewsUpdatesA_eq_of_cache_some env language previousHighlights st hc]
    at ht
  split at ht
  next hcond =>
    injection ht with h
    subst h
    exact ⟨⟨fun _ => hcond, fun _ => rfl⟩, fun _ => ⟨rfl, rfl, rfl⟩⟩
  next hcond =>
    injection ht with h
    subst h
    have hne := fetchAfterCacheA_path_ne_cacheHit env language []
    exact ⟨⟨fun hp => absurd hp hne, fun hcnd => absurd hcnd hcond⟩,
           fun hp => absurd hp hne⟩

/-- C4 witness: a fresh cache record stored for `en` does not satisfy a
request for `bn` — the run does not return from the cache. -/
theorem fetchNewsUpdatesA_cache_precedence_witness :
    (fetchAfterCacheA envW4 .bn []).path ≠ PathA.cacheHit := by
  have h := fetchNewsUpdatesA_cache_precedence envW4 .bn [] stW
      (fetchAfterCacheA envW4 .bn []) rfl rfl
  intro hp
  exact absurd (h.1.mp hp).2 (by decide)

/-- C3: with a stored cache record `st` (fresh or stale), when the
primary provider call was issued and did not succeed (variant A has no
secondary provider), the run serves the cached record with `status`
forcibly `QUOTA_EXCEEDED` regardless of the stored status, leaving
`generated_at`, `language`, `highlights` and the stored sources list
unchanged. -/
theorem fetchNewsUpdatesA_stale_override (env : EnvA) (language : Language)
    (previousHighlights : List NewsHighlight) (st : CacheStored) (t : TraceA)
    (hc : env.cache = some (some st))
    (ht : fetchNewsUpdatesA env language previousHighlights = .ok t)
    (hcall : t.calledPrimary = true)
    (hfail : t.path ≠ .primarySuccess) :
    t.path = .staleServe ∧
    t.result.data.status = .QUOTA_EXCEEDED ∧
    t.result.data.generated_at = st.data.generated_at ∧
    t.result.data.language = st.data.language ∧
    t.result.data.highlights = st.data.highlights ∧
    t.result.sources = st.sources := by
  rw [fetchNewsUpdatesA_eq_of_cache_some env language previousHighlights st hc]
    at ht
  split at ht
  next hcond =>
    injection ht with h
    subst h
    exact absurd hcall (by simp)
  next hcond =>
    injection ht with h
    subst h
    by_cases hk : env.apiKey = ""
    · exact absurd hcall (by simp [fetchAfterCacheA, hk])
    · rcases htp : tryPrimaryA env language with e | v
      · have hap : applyOps env.cache [] = some (some st) := by
          simp [applyOps, hc]
        simp [fetchAfterCacheA, hk, htp, hap]
      · exact absurd (by simp [fetchAfterCacheA, hk, htp]) hfail

/-- C3 witness: an expired `en` record with `status = OK`, a failing
provider: the run serves the stored record with status overridden and
the stored highlights and sources intact. -/
theorem fetchNewsUpdatesA_stale_override_witness :
    (fetchAfterCacheA envW3 .en []).result.data.status = .QUOTA_EXCEEDED ∧
    (fetchAfterCacheA envW3 .en []).result.data.highlights = [hlA] ∧
    (fetchAfterCacheA envW3 .en []).result.sources = [⟨"u", "t"⟩] := by
  have h := fetchNewsUpdatesA_stale_override envW3 .en [] stW3
      (fetchAfterCacheA envW3 .en []) rfl rfl rfl (by decide)
  exact ⟨h.2.1, h.2.2.2.2.1, h.2.2.2.2.2⟩

/-- C6: with no stored cache record (absent, or corrupt and hence cleared)
and a primary call that was issued and did not succeed, the run returns
exactly the fixed static fallback payload with an empty sources list. -/
theorem fetchNewsUpdatesA_terminal_fallback (env : EnvA) (language : Language)
    (previousHighlights : List NewsHighlight) (t : TraceA)
    (hc : env.cache = none ∨ env.cache = some none)
    (ht : fetchNewsUpdatesA env language previousHighlights = .ok t)
    (hcall : t.calledPrimary = true)
    (hfail : t.path ≠ .primarySuccess) :
    t.result = { data := FALLBACK_DATA env.initIso, sources := [] } ∧
    t.path = .staticFallback := by
  rcases hc with hc | hc
  · rw [fetchNewsUpdatesA_eq_of_cache_none env language previousHighlights hc]
      at ht
    injection ht with h
    subst h
    by_cases hk : env.apiKey = ""
    · exact absurd hcall (by simp [fetchAfterCacheA, hk])
    · rcases htp : tryPrimaryA env language with e | v
      · have hap : applyOps env.cache [] = none := by simp [applyOps, hc]
        simp [fetchAfterCacheA, hk, htp, hap]
      · exact absurd (by simp [fetchAfterCacheA, hk, htp]) hfail
  · rw [fetchNewsUpdatesA_eq_of_cache_corrupt env language previousHighlights hc]
      at ht
    injection ht with h
    subst h
    by_cases hk : env.apiKey = ""
    · exact absurd hcall (by simp [fetchAfterCacheA, hk])
    · rcases htp : tryPrimaryA env language with e | v
      · have hap : applyOps env.cache [.remove] = none := by
          simp [applyOps, applyOp, List.foldl]
        simp [fetchAfterCacheA, hk, htp, hap]
      · exact absurd (by simp [fetchAfterCacheA, hk, htp]) hfail

/-- C6 witness: empty cache, failing provider: the run returns the
static fallback with no sources. -/
theorem fetchNewsUpdatesA_terminal_fallback_witness :
    (fetchAfterCacheA envW6 .en []).result =
      { data := FALLBACK_DATA "T0", sources := [] } := by
  have h := fetchNewsUpdatesA_terminal_fallback envW6 .en []
      (fetchAfterCacheA envW6 .en []) (Or.inl rfl) rfl rfl (by decide)
  exact h.1

/-- The post-cache stage appends exactly one `put` to the incoming
mutation list when it succeeds through the primary provider, and appends
nothing otherwise. -/
theorem fetchAfterCacheA_mem_ops (env : EnvA) (language : Language)
    (ops0 : List CacheOp) :
    ((∃ e, CacheOp.put e ∈ (fetchAfterCacheA env language ops0).ops) ↔
      ((∃ e, CacheOp.put e ∈ ops0) ∨
        (fetchAfterCacheA env language ops0).path = .primarySuccess)) ∧
    (CacheOp.remove ∈ (fetchAfterCacheA env language ops0).ops ↔
      CacheOp.remove ∈ ops0) := by
  unfold fetchAfterCacheA
  repeat' split
  all_goals simp

/-- The post-cache stage reads the cache slot only through
`applyOps env.cache ops0`: two runs agreeing on the credential, the
module-load timestamp, the primary attempt and the effective slot state
produce the same result and path. -/
theorem fetchAfterCacheA_cache_independent (env env' : EnvA)
    (language : Language) (ops0 ops0' : List CacheOp)
    (hk : env'.apiKey = env.apiKey) (hi : env'.initIso = env.initIso)
    (hp : tryPrimaryA env' language = tryPrimaryA env language)
    (ha : applyOps env'.cache ops0' = applyOps env.cache ops0) :
    (fetchAfterCacheA env' language ops0').result =
      (fetchAfterCacheA env language ops0).result ∧
    (fetchAfterCacheA env' language ops0').path =
      (fetchAfterCacheA env language ops0).path := by
  unfold fetchAfterCacheA
  rw [hk, hi, hp, ha]
  repeat' split
  all_goals simp_all

/-- C8: across every execution path of variant A, a cache write (`put`)
occurs exactly on the primary-success path; a cache deletion (`remove`)
occurs exactly when the stored record failed to deserialize; and a
corrupt record is treated as a cache miss — the run's result and return
site coincide with those of the same run against an empty slot. -/
theorem fetchNewsUpdatesA_cache_lifecycle (env : EnvA) (language : Language)
    (previousHighlights : List NewsHighlight) (t : TraceA)
    (ht : fetchNewsUpdatesA env language previousHighlights = .ok t) :
    ((∃ e, CacheOp.put e ∈ t.ops) ↔ t.path = .primarySuccess) ∧
    ((CacheOp.remove ∈ t.ops) ↔ env.cache = some none) ∧
    (env.cache = some none →
      ∃ t', fetchNewsUpdatesA { env with cache := none } language
              previousHighlights = .ok t' ∧
            t'.result = t.result ∧ t'.path = t.path) := by
  rcases hcc : env.cache with _ | mc
  · rw [fetchNewsUpdatesA_eq_of_cache_none env language previousHighlights hcc]
      at ht
    injection ht with h
    subst h
    have hm := fetchAfterCacheA_mem_ops env language []
    refine ⟨?_, ?_, ?_⟩
    · rw [hm.1]; simp
    · rw [hm.2]; simp [hcc]
    · intro hx; exact Option.noConfusion hx
  · rcases mc with _ | st
    · rw [fetchNewsUpdatesA_eq_of_cache_corrupt env language
        previousHighlights hcc] at ht
      injection ht with h
      subst h
      have hm := fetchAfterCacheA_mem_ops env language [.remove]
      refine ⟨?_, ?_, ?_⟩
      · rw [hm.1]; simp
      · rw [hm.2]; simp
      · intro _
        refine ⟨fetchAfterCacheA { env with cache := none } language [],
          fetchNewsUpdatesA_eq_of_cache_none _ language previousHighlights rfl,
          ?_, ?_⟩
        · exact (fetchAfterCacheA_cache_independent env
            { env with cache := none } language [.remove] [] rfl rfl rfl rfl).1
        · exact (fetchAfterCacheA_cache_independent env
            { env with cache := none } language [.remove] [] rfl rfl rfl rfl).2
    · rw [fetchNewsUpdatesA_eq_of_cache_some env language previousHighlights
        st hcc] at ht
      split at ht
      next hcond =>
        injection ht with h
        subst h
        refine ⟨by simp, by simp [hcc], ?_⟩
        intro hx; simp at hx
      next hcond =>
        injection ht with h
        subst h
        have hm := fetchAfterCacheA_mem_ops env language []
        refine ⟨?_, ?_, ?_⟩
        · rw [hm.1]; simp
        · rw [hm.2]; simp [hcc]
        · intro hx; simp at hx

/-- C8 witness: a corrupt stored record together with a successful
primary acquisition — the run both clears the corrupt record and writes
the new entry. -/
theorem fetchNewsUpdatesA_cache_lifecycle_witness :
    (∃ e, CacheOp.put e ∈ (fetchAfterCacheA envW8 .en [.remove]).ops) ∧
    CacheOp.remove ∈ (fetchAfterCacheA envW8 .en [.remove]).ops := by
  have h := fetchNewsUpdatesA_cache_lifecycle envW8 .en []
      (fetchAfterCacheA envW8 .en [.remove]) rfl
  exact ⟨h.1.mpr rfl, h.2.1.mpr rfl⟩

/-- The two fully synthetic degraded payloads of the post-cache stage
(configuration error and static fallback) carry `language = en` and the
module-load timestamp, whatever the requested language. -/
theorem fetchAfterCacheA_degraded_metadata (env : EnvA) (language : Language)
    (ops0 : List CacheOp)
    (hp : (fetchAfterCacheA env language ops0).path = .configError ∨
          (fetchAfterCacheA env language ops0).path = .staticFallback) :
    (fetchAfterCacheA env language ops0).result.data.language = .en ∧
    (fetchAfterCacheA env language ops0).result.data.generated_at =
      env.initIso := by
  by_cases hk : env.apiKey = ""
  · simp [fetchAfterCacheA, hk, FALLBACK_DATA]
  · rcases htp : tryPrimaryA env language with e | v
    · rcases hap : applyOps env.cache ops0 with _ | mc
      · simp [fetchAfterCacheA, hk, htp, hap, FALLBACK_DATA]
      · rcases mc with _ | st
        · simp [fetchAfterCacheA, hk, htp, hap, FALLBACK_DATA]
        · rcases hp with hp | hp <;>
            simp [fetchAfterCacheA, hk, htp, hap] at hp
    · rcases v with ⟨res, entry⟩
      rcases hp with hp | hp <;> simp [fetchAfterCacheA, hk, htp] at hp

/-- C10: whichever language is requested (including `bn`), the
configuration-error payload and the static-fallback payload returned by
variant A carry `language = en` and a `generated_at` equal to the
module-initialization timestamp: neither degraded payload is adapted to
the requested language or to the call's clock. -/
theorem fetchNewsUpdatesA_degraded_metadata (env : EnvA) (language : Language)
    (previousHighlights : List NewsHighlight) (t : TraceA)
    (ht : fetchNewsUpdatesA env language previousHighlights = .ok t)
    (hp : t.path = .configError ∨ t.path = .staticFallback) :
    t.result.data.language = .en ∧
    t.result.data.generated_at = env.initIso := by
  rcases hcc : env.cache with _ | mc
  · rw [fetchNewsUpdatesA_eq_of_cache_none env language previousHighlights hcc]
      at ht
    injection ht with h
    subst h
    exact fetchAfterCacheA_degraded_metadata env language [] hp
  · rcases mc with _ | st
    · rw [fetchNewsUpdatesA_eq_of_cache_corrupt env language
        previousHighlights hcc] at ht
      injection ht with h
      subst h
      exact fetchAfterCacheA_degraded_metadata env language [.remove] hp
    · rw [fetchNewsUpdatesA_eq_of_cache_some env language previousHighlights
        st hcc] at ht
      split at ht
      next hcond =>
        injection ht with h
        subst h
        rcases hp with hp | hp <;> simp at hp
      next hcond =>
        injection ht with h
        subst h
        exact fetchAfterCacheA_degraded_metadata env language [] hp

/-- C10 witness: a `bn` request that lands on the configuration-error
payload still receives `language = en` and the module-load timestamp. -/
theorem fetchNewsUpdatesA_degraded_metadata_witness :
    (fetchAfterCacheA envW9 .bn []).result.data.language = Language.en ∧
    (fetchAfterCacheA envW9 .bn []).result.data.generated_at = "T0" := by
  have h := fetchNewsUpdatesA_degraded_metadata envW9 .bn []
      (fetchAfterCacheA envW9 .bn []) rfl (Or.inl rfl)
  exact h

/-- C9 counterexample: with an empty cache and the primary credential
absent, the returned highlight list is the single synthetic
"Configuration Required" highlight — it is not the static fallback set
with its "System Maintenance: Live Feed Paused" item replaced (that
list would retain the three archival highlights; the code discards
them). -/
theorem fetchNewsUpdatesA_config_error_counterexample :
    ∃ t : TraceA, fetchNewsUpdatesA envW9 .en [] = .ok t ∧
      t.result.data.highlights = [configHighlight] ∧
      t.result.data.highlights ≠
        configHighlight :: (FALLBACK_DATA "T0").highlights.drop 1 := by
  exact ⟨fetchAfterCacheA envW9 .en [], rfl, rfl, by decide⟩

/-- C9 (amended): with an empty cache and the primary credential absent,
the run returns a payload whose `highlights` list is exactly the single
synthetic "Configuration Required" highlight (the archival fallback
highlights are not retained), the other fields of the static fallback,
`status = QUOTA_EXCEEDED`, an empty sources list, and no provider call
or cache mutation. -/
theorem fetchNewsUpdatesA_config_error (env : EnvA) (language : Language)
    (previousHighlights : List NewsHighlight) (t : TraceA)
    (hc : env.cache = none) (hk : env.apiKey = "")
    (ht : fetchNewsUpdatesA env language previousHighlights = .ok t) :
    t.result.data = { FALLBACK_DATA env.initIso with
                        highlights := [configHighlight] } ∧
    t.result.data.status = .QUOTA_EXCEEDED ∧
    t.result.data.highlights = [configHighlight] ∧
    t.result.sources = [] ∧
    t.calledPrimary = false ∧
    t.ops = [] := by
  rw [fetchNewsUpdatesA_eq_of_cache_none env language previousHighlights hc]
    at ht
  injection ht with h
  subst h
  simp [fetchAfterCacheA, hk, FALLBACK_DATA]

/-- C9 witness: the amended statement at the concrete environment of the
counterexample. -/
theorem fetchNewsUpdatesA_config_error_witness :
    (fetchAfterCacheA envW9 .en []).result.data.highlights =
      [configHighlight] ∧
    (fetchAfterCacheA envW9 .en []).result.data.status = .QUOTA_EXCEEDED := by
  have h := fetchNewsUpdatesA_config_error envW9 .en []
      (fetchAfterCacheA envW9 .en []) rfl rfl rfl
  exact ⟨h.2.2.1, h.2.1⟩

/-- Unfolding equation of `fetchNewsUpdatesB` for a valid stored record. -/
theorem fetchNewsUpdatesB_eq_of_cache_some (env : EnvB) (language : Language)
    (previousHighlights : List NewsHighlight) (st : CacheStored)
    (hc : env.cache = some (some st)) :
    fetchNewsUpdatesB env language previousHighlights =
      (if env.now - st.timestamp < CACHE_DURATION_MS ∧ st.lang = language then
        .ok { result := { data := st.data, sources := st.sources }
              ops := []
              path := .cacheHit
              calledPrimary := false
              calledSecondary := false }
      else .ok (fetchAfterCacheB env language [])) := by
  unfold fetchNewsUpdatesB
  rw [hc]

/-- Unfolding equation of `fetchNewsUpdatesB` for a corrupt stored record. -/
theorem fetchNewsUpdatesB_eq_of_cache_corrupt (env : EnvB) (language : Language)
    (previousHighlights : List NewsHighlight)
    (hc : env.cache = some none) :
    fetchNewsUpdatesB env language previousHighlights =
      .ok (fetchAfterCacheB env language [.remove]) := by
  unfold fetchNewsUpdatesB
  rw [hc]

/-- Unfolding equation of `fetchNewsUpdatesB` for an absent record. -/
theorem fetchNewsUpdatesB_eq_of_cache_none (env : EnvB) (language : Language)
    (previousHighlights : List NewsHighlight)
    (hc : env.cache = none) :
    fetchNewsUpdatesB env language previousHighlights =
      .ok (fetchAfterCacheB env language []) := by
  unfold fetchNewsUpdatesB
  rw [hc]

/-- C5: in the `geminiService.ts` revision, whenever the primary attempt
fails (transport failure, missing key, or normalization failure — all of
which throw into the same catch), the secondary is attempted
(`calledSecondary = true`) and the secondary call succeeds with payload
`d`, the run returns `d` itself — its `status` exactly as returned, not
overridden to `QUOTA_EXCEEDED` — with an empty sources list, and writes
the cache with `d`, an empty source list, the current instant and the
requested language. -/
theorem fetchNewsUpdatesB_secondary_fallback (env : EnvB) (language : Language)
    (previousHighlights : List NewsHighlight) (d : NewsResponse) (t : TraceB)
    (ht : fetchNewsUpdatesB env language previousHighlights = .ok t)
    (hcs : t.calledSecondary = true)
    (hd : fetchOpenAIFallback env = .ok d) :
    t.result.data = d ∧
    t.result.sources = [] ∧
    t.result.data.status = d.status ∧
    t.path = .secondarySuccess ∧
    CacheOp.put ⟨d, [], env.now, language⟩ ∈ t.ops := by
  have hok : ¬env.openaiKey = "" := by
    intro hke
    simp [fetchOpenAIFallback, hke] at hd
  have post : ∀ ops0 : List CacheOp,
      t = fetchAfterCacheB env language ops0 →
      t.result.data = d ∧ t.result.sources = [] ∧
      t.result.data.status = d.status ∧ t.path = .secondarySuccess ∧
      CacheOp.put ⟨d, [], env.now, language⟩ ∈ t.ops := by
    intro ops0 h
    subst h
    rcases htp : tryPrimaryB env language with e | v
    · simp [fetchAfterCacheB, htp, hok, hd]
    · rcases v with ⟨res, entry⟩
      exact absurd hcs (by simp [fetchAfterCacheB, htp])
  rcases hcc : env.cache with _ | mc
  · rw [fetchNewsUpdatesB_eq_of_cache_none env language previousHighlights hcc]
      at ht
    injection ht with h
    exact post [] h.symm
  · rcases mc with _ | st
    · rw [fetchNewsUpdatesB_eq_of_cache_corrupt env language
        previousHighlights hcc] at ht
      injection ht with h
      exact post [.remove] h.symm
    · rw [fetchNewsUpdatesB_eq_of_cache_some env language previousHighlights
        st hcc] at ht
      split at ht
      next hcond =>
        injection ht with h
        rw [← h] at hcs
        exact absurd hcs (by simp)
      next hcond =>
        injection ht with h
        exact post [] h.symm

/-- C5 witness: primary failing, secondary succeeding with `dW5` — the
run returns `dW5` with its own status and no sources, and caches it with
an empty source list. -/
theorem fetchNewsUpdatesB_secondary_fallback_witness :
    (fetchAfterCacheB envW5 .en []).result.data = dW5 ∧
    (fetchAfterCacheB envW5 .en []).result.sources = [] ∧
    CacheOp.put ⟨dW5, [], 5, .en⟩ ∈ (fetchAfterCacheB envW5 .en []).ops := by
  have h := fetchNewsUpdatesB_secondary_fallback envW5 .en [] dW5
      (fetchAfterCacheB envW5 .en []) rfl rfl rfl
  exact ⟨h.1, h.2.1, h.2.2.2.2⟩

/-- C7 (amended): the inline normalisation step first strips code-fence
wrapping from the raw provider text and then parses the stripped text as
JSON; a parse failure raises the fixed "Invalid response format from
news engine." error (the raw text is only logged, not attached), and a
successfully parsed JSON value of any shape is accepted unchanged — no
structural `NewsResponse` validation is performed. -/
theorem normalize_strip_then_parse (parse : String → Option Json)
    (raw : String) :
    (∀ j, parse (cleanFences raw) = some j → normalize parse raw = .ok j) ∧
    (parse (cleanFences raw) = none →
      normalize parse raw = .error
        "Invalid response format from news engine.") := by
  constructor
  · intro j h
    simp [normalize, h]
  · intro h
    simp [normalize, h]

/-- C7 witness: a fenced raw text whose stripped form is `"42"` is
normalised by stripping first and parsing second. -/
theorem normalize_strip_then_parse_witness :
    normalize parseNum42 "```json 42```" = .ok (.num 42) := by
  have h := normalize_strip_then_parse parseNum42 "```json 42```"
  exact h.1 (.num 42) rfl

/-- C7 counterexample: `JSON.parse("42")` succeeds with the number `42`,
which is not a structurally valid `NewsResponse`, yet normalisation
accepts it — refuting "normalization succeeds only when the stripped
text is a structurally valid NewsResponse". -/
theorem normalize_accepts_invalid_shape :
    normalize parseNum42 "42" = .ok (.num 42) ∧
    isValidNewsResponseJson (.num 42) = false :=
  ⟨rfl, rfl⟩

/-- C2 counterexample: `previousHighlights = H = [hlA]` is passed to the
fetch, the app state holds a previously displayed response with
highlights `[hlB]`, and the provider answers `NO NEW UPDATE` with
highlights `H' = [hlC]`.  The resolved state's highlights are `[hlB]` —
the previous *state*'s highlights — and in particular not `H`, refuting
"the resolved response has highlights equal to H". -/
theorem resolveLoadNews_counterexample :
    ((resolveLoadNews
        { data := some ⟨"T1", .en, .OK, [hlB]⟩, sources := [] }
        [hlA]
        ⟨"T2", .en, .NO_NEW_UPDATE, [hlC]⟩
        []).1.data.map NewsResponse.highlights) = some [hlB] ∧
    [hlB] ≠ [hlA] ∧ [hlB] ≠ [hlC] :=
  ⟨rfl, by decide, by decide⟩

/-- C2 (amended): on a `NO NEW UPDATE` response, when the app state holds
a previously displayed response `pd`, the resolved state keeps `pd` with
only `generated_at` and `status` refreshed from the new response — so
the resolved highlights equal `pd`'s highlights (which coincide with the
passed `previousHighlights` only when the displayed set is the reference
set), and the reference highlights are left unchanged. -/
theorem resolveLoadNews_no_new_update_merge (prev : AppStateSlice)
    (prevRef : List NewsHighlight) (data : NewsResponse)
    (sources : List GroundingSource) (pd : NewsResponse)
    (hprev : prev.data = some pd) (hst : data.status = .NO_NEW_UPDATE) :
    (resolveLoadNews prev prevRef data sources).1.data =
      some { pd with generated_at := data.generated_at
                     status := data.status } ∧
    ((resolveLoadNews prev prevRef data sources).1.data.map
        NewsResponse.highlights) = some pd.highlights ∧
    (resolveLoadNews prev prevRef data sources).2 = prevRef := by
  simp [resolveLoadNews, hprev, hst]

/-- C2 witness: the amended statement at the counterexample's inputs. -/
theorem resolveLoadNews_no_new_update_merge_witness :
    (resolveLoadNews { data := some ⟨"T1", .en, .OK, [hlB]⟩, sources := [] }
        [hlA] ⟨"T2", .en, .NO_NEW_UPDATE, [hlC]⟩ []).1.data =
      some ⟨"T2", .en, .NO_NEW_UPDATE, [hlB]⟩ := by
  have h := resolveLoadNews_no_new_update_merge
      { data := some ⟨"T1", .en, .OK, [hlB]⟩, sources := [] }
      [hlA] ⟨"T2", .en, .NO_NEW_UPDATE, [hlC]⟩ []
      ⟨"T1", .en, .OK, [hlB]⟩ rfl rfl
  exact h.1

end Chornex
